import Mathlib

/-!
Shallow embedding of the scedge-core cache request pipeline, translated from
the Rust sources `src/api.rs`, `src/cache.rs`, `src/policy.rs`, `src/model.rs`,
`src/metrics.rs` and `src/error.rs`.

Modelling conventions:
* `chrono::DateTime<Utc>` is modelled as `Int`, counting milliseconds from an
  arbitrary epoch (chrono instants have sub-second precision, which matters
  for `Duration::num_seconds`).  `chrono::Duration::seconds s` is `1000 * s`
  and `Duration::num_seconds` truncates toward zero, i.e. `Int.tdiv · 1000`.
* The JSON (de)serialization done by `serde_json` in `cache.rs` is modelled as
  the identity: the Redis keyspace maps physical keys directly to
  `CachedArtifact` values.
* Every `Utc::now()` call made while one handler runs is modelled as the same
  instant `now`, passed explicitly.
* Each Redis operation first acquires a connection, which can fail; that is
  modelled by a `conn : Bool` argument (`false` = transport failure).  The
  deletion attempted by `get` on an expired record uses its own connection,
  modelled by `delete_ok : Bool`.
* `serde_json::Value` payloads that the cache never inspects (`answer`,
  `metadata`) are modelled as opaque `String`s; the floating-point
  `ArtifactMetrics` envelope is pass-through and never read by the pipeline,
  so it is omitted from the model.
* Prometheus counters are modelled as `Nat` fields; latency histograms
  measure real time and are omitted.
-/

deriving instance DecidableEq for Except

namespace Scedge

/-- Rust `str::trim().is_empty()`: true iff the string has no
non-whitespace character. -/
def isBlank (s : String) : Bool := s.data.all Char.isWhitespace

/-- `chrono::Duration::seconds s`, expressed in model milliseconds. -/
def durationSeconds (s : Int) : Int := 1000 * s

/-- `chrono::Duration::num_seconds`: whole seconds, truncated toward zero. -/
def numSeconds (d : Int) : Int := Int.tdiv d 1000

/-- `model.rs` `ProvenanceInfo`. -/
structure ProvenanceInfo where
  source : String
  hash : Option String
  version : Option String
  generated_at : Option Int
deriving DecidableEq

/-- `model.rs` `PolicyContext`. -/
structure PolicyContext where
  tenant : String
  phi : Bool
  pii : Bool
  region : Option String
  compliance_tags : List String
deriving DecidableEq

/-- `model.rs` `ArtifactPayload` (opaque JSON fields as `String`, the
pass-through `metrics` envelope omitted). -/
structure ArtifactPayload where
  answer : String
  policy : PolicyContext
  provenance : List ProvenanceInfo
  ttl_seconds : Option Nat
  hash : String
  metadata : Option String
deriving DecidableEq

/-- `model.rs` `CachedArtifact`. -/
structure CachedArtifact where
  key : String
  artifact : ArtifactPayload
  stored_at : Int
  expires_at : Option Int
deriving DecidableEq

/-- `model.rs` `CachedArtifact::ttl_remaining_seconds`. -/
def CachedArtifact.ttl_remaining_seconds (a : CachedArtifact) (now : Int) : Option Nat :=
  a.expires_at.map (fun deadline =>
    let remaining := numSeconds (deadline - now)
    if remaining ≤ 0 then 0 else remaining.toNat)

/-- `error.rs` `AppError`; the `Internal` payload keeps only the message. -/
inductive AppError where
  | BadRequest (msg : String)
  | NotFound (msg : String)
  | Internal (msg : String)
deriving DecidableEq

/-- `error.rs` `AppError::bad_request`. -/
def AppError.bad_request (msg : String) : AppError := .BadRequest msg

/-- `error.rs` `AppError::not_found`. -/
def AppError.not_found (msg : String) : AppError := .NotFound msg

/-- `error.rs` `impl IntoResponse for AppError`: the HTTP status of each
variant. -/
def AppError.status_code : AppError → Nat
  | .BadRequest _ => 400
  | .NotFound _ => 404
  | .Internal _ => 500

/-- `model.rs` `StoreRequest`. -/
structure StoreRequest where
  key : String
  artifact : ArtifactPayload
deriving DecidableEq

/-- `model.rs` `StoreStatus`. -/
inductive StoreStatus where
  | created
  | updated
deriving DecidableEq

/-- `model.rs` `StoreResponse`. -/
structure StoreResponse where
  key : String
  status : StoreStatus
  hash : String
  expires_at : Option Int
deriving DecidableEq

/-- `model.rs` `LookupResponse`; also the decoded body of an upstream reply
(`upstream.rs` parses the upstream response into this same type). -/
structure LookupResponse where
  key : String
  artifact : ArtifactPayload
  expires_at : Option Int
  ttl_remaining_seconds : Option Nat
deriving DecidableEq

/-- `model.rs` `LookupQuery`. -/
structure LookupQuery where
  key : String
  tenant : Option String
deriving DecidableEq

/-- `model.rs` `PurgeRequest` (`keys` defaults to the empty list when absent). -/
structure PurgeRequest where
  keys : List String
  tenant : Option String
  provenance_hash : Option String
deriving DecidableEq

/-- `model.rs` `PurgeResponse`. -/
structure PurgeResponse where
  purged : Nat
deriving DecidableEq

/-- `policy.rs` `TenantConfig`. -/
structure TenantConfig where
  tenant_id : String
  api_key : String
  allowed_regions : List String
  max_ttl_seconds : Option Nat
  require_phi_compliance : Bool
  require_pii_compliance : Bool
deriving DecidableEq

/-- `policy.rs` `PolicyEngine`: the tenant registry (JWT checking is
cryptographic and not used by the handlers under study). -/
structure PolicyEngine where
  tenants : List (String × TenantConfig)
deriving DecidableEq

/-- `policy.rs` `PolicyEngine::get_tenant`. -/
def PolicyEngine.get_tenant (p : PolicyEngine) (tenant_id : String) : Option TenantConfig :=
  p.tenants.lookup tenant_id

/-- `policy.rs` `PolicyEngine::validate_api_key`. -/
def PolicyEngine.validate_api_key (p : PolicyEngine) (tenant_id api_key : String) :
    Except AppError Unit :=
  match p.tenants.lookup tenant_id with
  | some config =>
    if config.api_key = api_key then Except.ok ()
    else Except.error (AppError.bad_request "Invalid API key")
  | none => Except.error (AppError.bad_request "Unknown tenant")

/-- `policy.rs` `PolicyEngine::validate_ttl`. -/
def PolicyEngine.validate_ttl (p : PolicyEngine) (tenant_id : String)
    (ttl_seconds : Option Nat) : Except AppError Unit :=
  match ttl_seconds with
  | some ttl =>
    match p.get_tenant tenant_id with
    | some config =>
      match config.max_ttl_seconds with
      | some max_ttl =>
        if ttl > max_ttl then
          Except.error (AppError.bad_request
            ("TTL " ++ toString ttl ++ " exceeds maximum allowed " ++ toString max_ttl
              ++ " for tenant " ++ tenant_id))
        else Except.ok ()
      | none => Except.ok ()
    | none => Except.ok ()
  | none => Except.ok ()

/-- `policy.rs` `PolicyEngine::validate_region`. -/
def PolicyEngine.validate_region (p : PolicyEngine) (tenant_id : String)
    (region : Option String) : Except AppError Unit :=
  match p.get_tenant tenant_id with
  | some config =>
    if config.allowed_regions.isEmpty then Except.ok ()
    else
      match region with
      | some r =>
        if config.allowed_regions.contains r then Except.ok ()
        else Except.error (AppError.bad_request
          ("Region " ++ r ++ " not allowed for tenant " ++ tenant_id))
      | none => Except.ok ()
  | none => Except.ok ()

/-- `policy.rs` `PolicyEngine::validate_compliance`: a logging-only gate that
always passes. -/
def PolicyEngine.validate_compliance (_p : PolicyEngine) (_tenant_id : String)
    (_has_phi _has_pii : Bool) : Except AppError Unit :=
  Except.ok ()

/-- `metrics.rs` `Metrics`: the integer counters touched by the request
pipeline (gauges and latency histograms omitted). -/
structure Metrics where
  cache_hits : Nat
  cache_misses : Nat
  cache_stores : Nat
  cache_purges : Nat
  upstream_requests : Nat
  upstream_failures : Nat
  artifacts_stored : Nat
deriving DecidableEq

/-- `metrics.rs` `Metrics::record_cache_hit`. -/
def Metrics.record_cache_hit (m : Metrics) : Metrics :=
  { m with cache_hits := m.cache_hits + 1 }

/-- `metrics.rs` `Metrics::record_cache_miss`. -/
def Metrics.record_cache_miss (m : Metrics) : Metrics :=
  { m with cache_misses := m.cache_misses + 1 }

/-- `metrics.rs` `Metrics::record_cache_store` (increments both
`cache_stores` and `artifacts_stored`). -/
def Metrics.record_cache_store (m : Metrics) : Metrics :=
  { m with cache_stores := m.cache_stores + 1, artifacts_stored := m.artifacts_stored + 1 }

/-- `metrics.rs` `Metrics::record_cache_purge`. -/
def Metrics.record_cache_purge (m : Metrics) (count : Nat) : Metrics :=
  { m with cache_purges := m.cache_purges + count }

/-- `metrics.rs` `Metrics::record_upstream_request`. -/
def Metrics.record_upstream_request (m : Metrics) : Metrics :=
  { m with upstream_requests := m.upstream_requests + 1 }

/-- `metrics.rs` `Metrics::record_upstream_failure`. -/
def Metrics.record_upstream_failure (m : Metrics) : Metrics :=
  { m with upstream_failures := m.upstream_failures + 1 }

/-- The physical Redis keyspace: physical key to stored record, with the
JSON encoding modelled as the identity.  `insert` overwrites, so the key
list stays duplicate-free when it starts that way. -/
abbrev RedisState := List (String × CachedArtifact)

/-- Physical read (`redis GET`). -/
def lookupPhys (st : RedisState) (k : String) : Option CachedArtifact :=
  st.lookup k

/-- Physical delete (`redis DEL` of a single key). -/
def erasePhys (st : RedisState) (k : String) : RedisState :=
  st.filter (fun e => e.1 ≠ k)

/-- Physical write (`redis SET`/`SETEX`): overwrite the key. -/
def insertPhys (st : RedisState) (k : String) (v : CachedArtifact) : RedisState :=
  (k, v) :: erasePhys st k

/-- `cache.rs` `RedisCache::build_redis_key`. -/
def build_redis_key (key : String) : String := "scedge:artifact:" ++ key

/-- The namespace string used by `build_redis_key` and `scan_by_pattern`. -/
def artifactNs : String := "scedge:artifact:"

/-- Redis `MATCH` glob on characters (`*` and `?`; the source only ever uses
`*` and `<tenant>:*` patterns).  A `*` matches when the rest of the pattern
matches some suffix of the string. -/
def globMatch : List Char → List Char → Bool
  | [], s => s.isEmpty
  | p :: ps, s =>
    if p = '*' then s.tails.any (fun t => globMatch ps t)
    else
      match s with
      | [] => false
      | c :: cs => (p = '?' || p = c) && globMatch ps cs

/-- Rust `str::strip_prefix` on character lists (used by `scan_by_pattern`
to strip the `scedge:artifact:` namespace). -/
def dropPre : List Char → List Char → Option (List Char)
  | [], s => some s
  | _ :: _, [] => none
  | p :: ps, c :: cs => if p = c then dropPre ps cs else none

/-- `cache.rs` `RedisCache::get` (lines 88-114): read, lazily expire, and
never fail because the expiry deletion failed. -/
def RedisCache.get (conn delete_ok : Bool) (now : Int) (st : RedisState) (key : String) :
    Except AppError (Option CachedArtifact) × RedisState :=
  if conn then
    let redis_key := build_redis_key key
    match lookupPhys st redis_key with
    | some artifact =>
      match artifact.expires_at with
      | some expires_at =>
        if expires_at ≤ now then
          (Except.ok none, if delete_ok then erasePhys st redis_key else st)
        else (Except.ok (some artifact), st)
      | none => (Except.ok (some artifact), st)
    | none => (Except.ok none, st)
  else (Except.error (AppError.Internal "Redis connection failed"), st)

/-- `cache.rs` `RedisCache::set` (lines 116-148).  The `Option Nat` paired
with the stored record observes the native TTL handed to `SETEX`
(`none` for a plain `SET`). -/
def RedisCache.set (conn : Bool) (now : Int) (st : RedisState) (key : String)
    (artifact : ArtifactPayload) (expires_at : Option Int) :
    Except AppError (CachedArtifact × Option Nat) × RedisState :=
  if conn then
    let cached : CachedArtifact :=
      { key := key, artifact := artifact, stored_at := now, expires_at := expires_at }
    let redis_key := build_redis_key key
    match expires_at with
    | some exp =>
      let ttl := numSeconds (exp - now)
      if ttl > 0 then
        (Except.ok (cached, some ttl.toNat), insertPhys st redis_key cached)
      else
        (Except.error (AppError.bad_request "Artifact already expired"), st)
    | none => (Except.ok (cached, none), insertPhys st redis_key cached)
  else (Except.error (AppError.Internal "Redis connection failed"), st)

/-- `cache.rs` `RedisCache::delete` (lines 150-159). -/
def RedisCache.delete (conn : Bool) (st : RedisState) (key : String) :
    Except AppError Bool × RedisState :=
  if conn then
    let redis_key := build_redis_key key
    ((Except.ok (lookupPhys st redis_key).isSome), erasePhys st redis_key)
  else (Except.error (AppError.Internal "Redis connection failed"), st)

/-- `cache.rs` `RedisCache::delete_many` (lines 161-177): the empty-list
shortcut returns before any connection is acquired; otherwise one `DEL` of
all physical keys (each distinct existing key counts once). -/
def RedisCache.delete_many (conn : Bool) (st : RedisState) (keys : List String) :
    Except AppError Nat × RedisState :=
  if keys.isEmpty then (Except.ok 0, st)
  else if conn then
    let redis_keys := keys.map build_redis_key
    let deleted := (redis_keys.dedup.filter (fun k => (lookupPhys st k).isSome)).length
    (Except.ok deleted, redis_keys.foldl erasePhys st)
  else (Except.error (AppError.Internal "Redis connection failed"), st)

/-- `cache.rs` `RedisCache::scan_by_pattern` (lines 179-212): the cursor
loop visits the whole keyspace; keys matching `scedge:artifact:<pattern>`
are returned with the namespace stripped. -/
def RedisCache.scan_by_pattern (conn : Bool) (st : RedisState) (pattern : String) :
    Except AppError (List String) × RedisState :=
  if conn then
    let search_pattern := artifactNs ++ pattern
    let keys := st.filterMap (fun e =>
      if globMatch search_pattern.data e.1.data then
        (dropPre artifactNs.data e.1.data).map String.mk
      else none)
    (Except.ok keys, st)
  else (Except.error (AppError.Internal "Redis connection failed"), st)

/-- The `cache.rs` `Cache` facade seen by the handlers: a backend with state
type `σ` (the handlers in `api.rs` are written against this capability set). -/
structure CacheOps (σ : Type) where
  get : σ → String → Except AppError (Option CachedArtifact) × σ
  set : σ → String → ArtifactPayload → Option Int → Except AppError CachedArtifact × σ
  delete_many : σ → List String → Except AppError Nat × σ
  scan_by_pattern : σ → String → Except AppError (List String) × σ

/-- The facade over the (healthy-connection) Redis backend at instant `now`;
the native-TTL observation of `RedisCache.set` is dropped, as `Cache::set`
returns only the stored record. -/
def redisOps (now : Int) : CacheOps RedisState where
  get st key := RedisCache.get true true now st key
  set st key artifact expires_at :=
    match RedisCache.set true now st key artifact expires_at with
    | (Except.ok (cached, _), st') => (Except.ok cached, st')
    | (Except.error e, st') => (Except.error e, st')
  delete_many st keys := RedisCache.delete_many true st keys
  scan_by_pattern st pattern := RedisCache.scan_by_pattern true st pattern

/-- `api.rs` `handle_store` (lines 67-138).  `api_key` models the optional
`x-api-key` header. -/
def handle_store {σ : Type} (ops : CacheOps σ) (policy : PolicyEngine)
    (default_ttl_seconds : Nat) (api_key : Option String)
    (request : StoreRequest) (now : Int) (st : σ) (m : Metrics) :
    Except AppError StoreResponse × σ × Metrics :=
  if isBlank request.key then
    (Except.error (AppError.bad_request "key is required"), st, m)
  else if isBlank request.artifact.hash then
    (Except.error (AppError.bad_request "artifact hash is required"), st, m)
  else
    let tenant_id := request.artifact.policy.tenant
    match (match api_key with
           | some k => policy.validate_api_key tenant_id k
           | none => Except.ok ()) with
    | Except.error e => (Except.error e, st, m)
    | Except.ok _ =>
      match policy.validate_ttl tenant_id request.artifact.ttl_seconds with
      | Except.error e => (Except.error e, st, m)
      | Except.ok _ =>
        match policy.validate_region tenant_id request.artifact.policy.region with
        | Except.error e => (Except.error e, st, m)
        | Except.ok _ =>
          match policy.validate_compliance tenant_id request.artifact.policy.phi
              request.artifact.policy.pii with
          | Except.error e => (Except.error e, st, m)
          | Except.ok _ =>
            let ttl_seconds := request.artifact.ttl_seconds.getD default_ttl_seconds
            let expires_at :=
              if ttl_seconds > 0 then some (now + durationSeconds (ttl_seconds : Int))
              else none
            match ops.set st request.key request.artifact expires_at with
            | (Except.error e, st') => (Except.error e, st', m)
            | (Except.ok cached, st') =>
              (Except.ok { key := cached.key, status := StoreStatus.created,
                           hash := cached.artifact.hash, expires_at := cached.expires_at },
               st', m.record_cache_store)

/-- `api.rs` `handle_lookup`, hit continuation after the tenant check
(lines 163-180). -/
def lookup_hit {σ : Type} (policy : PolicyEngine) (api_key : Option String)
    (record : CachedArtifact) (now : Int) (st : σ) (m : Metrics) :
    Except AppError LookupResponse × σ × Metrics :=
  match (match api_key with
         | some k => policy.validate_api_key record.artifact.policy.tenant k
         | none => Except.ok ()) with
  | Except.error e => (Except.error e, st, m)
  | Except.ok _ =>
    (Except.ok { key := record.key, artifact := record.artifact,
                 expires_at := record.expires_at,
                 ttl_remaining_seconds := record.ttl_remaining_seconds now },
     st, m.record_cache_hit)

/-- `api.rs` `handle_lookup`, expiry computation of the hydration path
(lines 215-238): four fallbacks filling `expires_at` while it is still
`none`. -/
def hydrate_expires_at (upstream_record : LookupResponse)
    (default_ttl_seconds : Nat) (now : Int) : Option Int :=
  let e := upstream_record.expires_at
  let e := if e.isNone then
      match upstream_record.ttl_remaining_seconds with
      | some ttl_remaining =>
        if ttl_remaining > 0 then some (now + durationSeconds (ttl_remaining : Int)) else none
      | none => none
    else e
  let e := if e.isNone then
      match upstream_record.artifact.ttl_seconds with
      | some ttl => if ttl > 0 then some (now + durationSeconds (ttl : Int)) else none
      | none => none
    else e
  if e.isNone ∧ default_ttl_seconds > 0 then
    some (now + durationSeconds (default_ttl_seconds : Int))
  else e

/-- `api.rs` `handle_lookup`, hydration continuation after the upstream
tenant check (lines 209-258): re-validate the API key, compute the expiry,
cache the record and return it as a hit. -/
def hydrate_store {σ : Type} (ops : CacheOps σ) (policy : PolicyEngine)
    (default_ttl_seconds : Nat) (api_key : Option String) (key : String)
    (upstream_record : LookupResponse) (now : Int) (st : σ) (m : Metrics) :
    Except AppError LookupResponse × σ × Metrics :=
  match (match api_key with
         | some k => policy.validate_api_key upstream_record.artifact.policy.tenant k
         | none => Except.ok ()) with
  | Except.error e => (Except.error e, st, m)
  | Except.ok _ =>
    let expires_at := hydrate_expires_at upstream_record default_ttl_seconds now
    match ops.set st key upstream_record.artifact expires_at with
    | (Except.error e, st') => (Except.error e, st', m)
    | (Except.ok cached, st') =>
      (Except.ok { key := cached.key, artifact := cached.artifact,
                   expires_at := cached.expires_at,
                   ttl_remaining_seconds := cached.ttl_remaining_seconds now },
       st', m.record_cache_store)

/-- `api.rs` `handle_lookup` (lines 141-278).  `upstream` is `some f` when
an upstream client is configured, `f` being the result of
`UpstreamClient::lookup` on a key and optional tenant; latency histogram
observations are omitted. -/
def handle_lookup {σ : Type} (ops : CacheOps σ) (policy : PolicyEngine)
    (default_ttl_seconds : Nat)
    (upstream : Option (String → Option String → Except AppError (Option LookupResponse)))
    (api_key : Option String) (query : LookupQuery) (now : Int) (st : σ) (m : Metrics) :
    Except AppError LookupResponse × σ × Metrics :=
  if isBlank query.key then
    (Except.error (AppError.bad_request "key query parameter is required"), st, m)
  else
    match ops.get st query.key with
    | (Except.error e, st') => (Except.error e, st', m)
    | (Except.ok (some record), st') =>
      match query.tenant with
      | some requested_tenant =>
        if requested_tenant = record.artifact.policy.tenant then
          lookup_hit policy api_key record now st' m
        else
          (Except.error (AppError.not_found "cache miss"), st', m.record_cache_miss)
      | none => lookup_hit policy api_key record now st' m
    | (Except.ok none, st') =>
      let m := m.record_cache_miss
      match upstream with
      | some upstream_lookup =>
        let m := m.record_upstream_request
        match upstream_lookup query.key query.tenant with
        | Except.ok (some upstream_record) =>
          match query.tenant with
          | some requested_tenant =>
            if requested_tenant = upstream_record.artifact.policy.tenant then
              hydrate_store ops policy default_ttl_seconds api_key query.key
                upstream_record now st' m
            else
              (Except.error (AppError.not_found "cache miss"), st',
               m.record_upstream_failure)
          | none =>
            hydrate_store ops policy default_ttl_seconds api_key query.key
              upstream_record now st' m
        | Except.ok none =>
          (Except.error (AppError.not_found "cache miss"), st', m)
        | Except.error err =>
          (Except.error err, st', m.record_upstream_failure)
      | none => (Except.error (AppError.not_found "cache miss"), st', m)

/-- The `has_hash` test of the provenance purge loop (api.rs lines
313-318): some provenance entry carries the supplied hash, or the artifact
hash equals it. -/
def provMatches (prov_hash : String) (r : CachedArtifact) : Bool :=
  r.artifact.provenance.any (fun p => p.hash == some prov_hash)
    || r.artifact.hash == prov_hash

/-- `api.rs` `handle_purge`, provenance scan loop (lines 311-324): fetch
each scanned key and keep those whose artifact hash or provenance entries
carry the supplied hash; fetch errors and misses are skipped. -/
def provenance_to_purge {σ : Type} (ops : CacheOps σ) (prov_hash : String) :
    List String → σ → List String × σ
  | [], st => ([], st)
  | key :: rest, st =>
    match ops.get st key with
    | (Except.ok (some artifact), st') =>
      let has_hash := provMatches prov_hash artifact
      let out := provenance_to_purge ops prov_hash rest st'
      if has_hash then (key :: out.1, out.2) else out
    | (Except.ok none, st') => provenance_to_purge ops prov_hash rest st'
    | (Except.error _, st') => provenance_to_purge ops prov_hash rest st'

/-- `api.rs` `handle_purge` (lines 281-336). -/
def handle_purge {σ : Type} (ops : CacheOps σ) (policy : PolicyEngine)
    (api_key : Option String) (request : PurgeRequest) (st : σ) (m : Metrics) :
    Except AppError PurgeResponse × σ × Metrics :=
  match (match request.tenant with
         | some tenant_id =>
           match api_key with
           | some k => policy.validate_api_key tenant_id k
           | none => Except.ok ()
         | none => Except.ok ()) with
  | Except.error e => (Except.error e, st, m)
  | Except.ok _ =>
    if !request.keys.isEmpty then
      match ops.delete_many st request.keys with
      | (Except.error e, st') => (Except.error e, st', m)
      | (Except.ok purged, st') =>
        (Except.ok { purged := purged }, st', m.record_cache_purge purged)
    else
      match request.tenant with
      | some tenant_id =>
        let pattern := tenant_id ++ ":*"
        match ops.scan_by_pattern st pattern with
        | (Except.error e, st') => (Except.error e, st', m)
        | (Except.ok keys, st') =>
          match ops.delete_many st' keys with
          | (Except.error e, st'') => (Except.error e, st'', m)
          | (Except.ok purged, st'') =>
            (Except.ok { purged := purged }, st'', m.record_cache_purge purged)
      | none =>
        match request.provenance_hash with
        | some prov_hash =>
          match ops.scan_by_pattern st "*" with
          | (Except.error e, st') => (Except.error e, st', m)
          | (Except.ok keys, st') =>
            let out := provenance_to_purge ops prov_hash keys st'
            match ops.delete_many out.2 out.1 with
            | (Except.error e, st'') => (Except.error e, st'', m)
            | (Except.ok purged, st'') =>
              (Except.ok { purged := purged }, st'', m.record_cache_purge purged)
        | none =>
          (Except.error (AppError.bad_request "must specify keys, tenant, or provenance_hash"),
           st, m)

/-! ### Shared concrete fixtures for witnesses and counterexamples -/

/-- A tenant-`t1` policy context. -/
def demoPolicyT1 : PolicyContext :=
  { tenant := "t1", phi := false, pii := false, region := none, compliance_tags := [] }

/-- A plain artifact owned by tenant `t1` with a 60-second TTL. -/
def demoArtifact : ArtifactPayload :=
  { answer := "hi", policy := demoPolicyT1, provenance := [], ttl_seconds := some 60,
    hash := "h1", metadata := none }

/-- `demoArtifact` cached at instant 0, expiring at 60 s. -/
def demoRecord : CachedArtifact :=
  { key := "k", artifact := demoArtifact, stored_at := 0, expires_at := some 60000 }

/-- A one-record keyspace holding `demoRecord`. -/
def demoState : RedisState := [(build_redis_key "k", demoRecord)]

/-- All-zero metrics. -/
def demoMetrics : Metrics := ⟨0, 0, 0, 0, 0, 0, 0⟩

/-- Effective store TTL as the SPEC words it (§4.5 store step 4):
`artifact.ttl_seconds if > 0 else default_ttl_seconds`, so a supplied `0`
falls back to the default. -/
def spec_effective_ttl (artifact_ttl : Option Nat) (default_ttl_seconds : Nat) : Nat :=
  match artifact_ttl with
  | some t => if t > 0 then t else default_ttl_seconds
  | none => default_ttl_seconds

/-- `demoArtifact` with an explicit `ttl_seconds = 0`. -/
def demoArtifactTtl0 : ArtifactPayload := { demoArtifact with ttl_seconds := some 0 }

/-- Hydration expiry as the SPEC words it (§4.5.1 step 5): the first of the
four candidates that yields an instant strictly after `now`, else none. -/
def spec_hydrate_expires_at (r : LookupResponse) (default_ttl_seconds : Nat)
    (now : Int) : Option Int :=
  let candidates : List (Option Int) :=
    [ r.expires_at,
      r.ttl_remaining_seconds.map (fun t => now + durationSeconds (t : Int)),
      r.artifact.ttl_seconds.map (fun t => now + durationSeconds (t : Int)),
      if 0 < default_ttl_seconds then some (now + durationSeconds (default_ttl_seconds : Int))
      else none ]
  (candidates.filterMap id).find? (fun e => decide (now < e))

/-- An upstream reply whose explicit `expires_at` lies 10 s in the past but
which carries a positive `ttl_remaining_seconds`. -/
def demoUpstreamStale : LookupResponse :=
  { key := "k", artifact := demoArtifact, expires_at := some (-10000),
    ttl_remaining_seconds := some 60 }

/-- Hydration expiry as amended: candidate (a), the upstream's explicit
`expires_at`, is used whenever present, with no positivity check; the TTL
candidates (b), (c), (d) each apply only when the TTL value is `> 0`; else
none. -/
def amended_hydrate_expires_at (r : LookupResponse) (default_ttl_seconds : Nat)
    (now : Int) : Option Int :=
  match r.expires_at with
  | some e => some e
  | none =>
    match (match r.ttl_remaining_seconds with
           | some t => if 0 < t then some (now + durationSeconds (t : Int)) else none
           | none => none) with
    | some e => some e
    | none =>
      match (match r.artifact.ttl_seconds with
             | some t => if 0 < t then some (now + durationSeconds (t : Int)) else none
             | none => none) with
      | some e => some e
      | none =>
        if 0 < default_ttl_seconds then some (now + durationSeconds (default_ttl_seconds : Int))
        else none

/-- Native TTL as the SPEC words it (§6.2): `ceil(max(0, expires_at − now))`
whole seconds, computed on model milliseconds. -/
def spec_native_ttl (expires_at now : Int) : Int :=
  (max 0 (expires_at - now) + 999) / 1000

/-- A keyspace image: logical entries rendered under their physical
`scedge:artifact:` keys. -/
def toPhys (ls : List (String × CachedArtifact)) : RedisState :=
  ls.map (fun e => (build_redis_key e.1, e.2))

/-- `demoArtifact` with a 100-second TTL. -/
def demoArtifact100 : ArtifactPayload := { demoArtifact with ttl_seconds := some 100 }

/-- An upstream reply carrying `ttl_seconds = 100` but an explicit
`expires_at` only 50 s away. -/
def demoUpstream100 : LookupResponse :=
  { key := "k", artifact := demoArtifact100, expires_at := some 50000,
    ttl_remaining_seconds := none }

/-- `demoArtifact` under a different hash, for provenance-purge fixtures. -/
def demoArtifactHx : ArtifactPayload := { demoArtifact with hash := "hx" }

/-- A non-expiring record holding `demoArtifactHx`. -/
def demoRecordNoExp : CachedArtifact :=
  { key := "k2", artifact := demoArtifactHx, stored_at := 0, expires_at := none }

/-- A backend whose `get` always reports a transport error while `scan`
finds one key and `delete_many` succeeds — exercises the provenance purge
loop's error handling. -/
def faultyGetOps : CacheOps Unit where
  get s _ := (Except.error (AppError.Internal "Redis GET failed"), s)
  set s _ _ _ := (Except.error (AppError.Internal "Redis SETEX failed"), s)
  delete_many s keys := if keys.isEmpty then (Except.ok 0, s) else (Except.ok keys.length, s)
  scan_by_pattern s _ := (Except.ok ["k1"], s)

/-- A backend where every operation reports a transport error. -/
def errOps : CacheOps Unit where
  get s _ := (Except.error (AppError.Internal "Redis GET failed"), s)
  set s _ _ _ := (Except.error (AppError.Internal "Redis SETEX failed"), s)
  delete_many s _ := (Except.error (AppError.Internal "Redis DEL failed"), s)
  scan_by_pattern s _ := (Except.error (AppError.Internal "Redis SCAN failed"), s)

/-! ## Theorems -/

/-- Exact division of a whole-second duration back into seconds. -/
theorem numSeconds_duration (t : Int) : numSeconds (durationSeconds t) = t := by
  unfold numSeconds durationSeconds
  exact Int.mul_tdiv_cancel_left _ (by norm_num)

/-- Reading back the key just written. -/
theorem lookupPhys_insertPhys (st : RedisState) (k : String) (v : CachedArtifact) :
    lookupPhys (insertPhys st k v) k = some v := by
  simp [lookupPhys, insertPhys, List.lookup]

/-! ### C1: tenant mismatch on a cache hit -/

/-- C1: on a cache hit, when the query carries a tenant different from the
stored `artifact.policy.tenant`, `handle_lookup` records a cache miss and
answers `NotFound("cache miss")` — the same shape as an ordinary miss, with
no distinct error and no hit recorded. -/
theorem lookup_tenant_mismatch_is_miss {σ : Type} (ops : CacheOps σ)
    (policy : PolicyEngine) (default_ttl_seconds : Nat)
    (upstream : Option (String → Option String → Except AppError (Option LookupResponse)))
    (api_key : Option String) (query : LookupQuery) (now : Int) (st st' : σ) (m : Metrics)
    (record : CachedArtifact) (requested : String)
    (hkey : isBlank query.key = false)
    (hget : ops.get st query.key = (Except.ok (some record), st'))
    (ht : query.tenant = some requested)
    (hne : requested ≠ record.artifact.policy.tenant) :
    handle_lookup ops policy default_ttl_seconds upstream api_key query now st m
      = (Except.error (AppError.not_found "cache miss"), st', m.record_cache_miss) := by
  simp [handle_lookup, hkey, hget, ht, hne]

/-- Witness for C1: tenant `t2` queries the record stored under `t1`. -/
theorem lookup_tenant_mismatch_is_miss_witness :
    handle_lookup (redisOps 1000) ⟨[]⟩ 300 none none ⟨"k", some "t2"⟩ 1000 demoState demoMetrics
      = (Except.error (AppError.not_found "cache miss"), demoState,
         demoMetrics.record_cache_miss) :=
  lookup_tenant_mismatch_is_miss (redisOps 1000) ⟨[]⟩ 300 none none ⟨"k", some "t2"⟩ 1000
    demoState demoState demoMetrics demoRecord "t2" (by decide) (by decide) rfl (by decide)

/-! ### C2: effective TTL on the store path -/

/-- Counterexample to C2: storing with `ttl_seconds = 0` and
`default_ttl_seconds = 300` yields `expires_at = none` (the handler uses
`unwrap_or`, so an explicit `0` is kept rather than replaced by the
default), while the claimed effective TTL is `300 ≠ 0`, which would demand
`expires_at = now + 300 s`. -/
theorem store_zero_ttl_counterexample :
    (handle_store (redisOps 0) ⟨[]⟩ 300 none ⟨"k", demoArtifactTtl0⟩ 0 [] demoMetrics).1
      = Except.ok { key := "k", status := StoreStatus.created, hash := "h1", expires_at := none }
    ∧ spec_effective_ttl (some 0) 300 = 300
    ∧ spec_effective_ttl (some 0) 300 ≠ 0 := by decide

/-- Full behaviour of a validated `handle_store` over the Redis backend:
the record is stamped at `now` and expires after the effective TTL
(`ttl_seconds` when present, else the default), `none` when that value
is zero. -/
theorem handle_store_redis_ok (policy : PolicyEngine) (default_ttl_seconds : Nat)
    (api_key : Option String) (request : StoreRequest) (now : Int) (st : RedisState)
    (m : Metrics)
    (h1 : isBlank request.key = false)
    (h2 : isBlank request.artifact.hash = false)
    (h3 : (match api_key with
           | some k => policy.validate_api_key request.artifact.policy.tenant k
           | none => Except.ok ()) = Except.ok ())
    (h4 : policy.validate_ttl request.artifact.policy.tenant request.artifact.ttl_seconds
            = Except.ok ())
    (h5 : policy.validate_region request.artifact.policy.tenant request.artifact.policy.region
            = Except.ok ()) :
    handle_store (redisOps now) policy default_ttl_seconds api_key request now st m
      = (Except.ok { key := request.key, status := StoreStatus.created,
                     hash := request.artifact.hash,
                     expires_at :=
                       if 0 < request.artifact.ttl_seconds.getD default_ttl_seconds then
                         some (now + durationSeconds
                           (request.artifact.ttl_seconds.getD default_ttl_seconds : Nat))
                       else none },
         insertPhys st (build_redis_key request.key)
           { key := request.key, artifact := request.artifact, stored_at := now,
             expires_at :=
               if 0 < request.artifact.ttl_seconds.getD default_ttl_seconds then
                 some (now + durationSeconds
                   (request.artifact.ttl_seconds.getD default_ttl_seconds : Nat))
               else none },
         m.record_cache_store) := by
  have hns : ∀ t : Nat, numSeconds (now + durationSeconds (t : Int) - now) = (t : Int) := by
    intro t
    have harith : now + durationSeconds (t : Int) - now = 1000 * (t : Int) := by
      unfold durationSeconds; ring
    rw [harith]
    exact Int.mul_tdiv_cancel_left _ (by norm_num)
  unfold handle_store
  simp only [h1, h2, h3, h4, h5, PolicyEngine.validate_compliance, Bool.false_eq_true,
    if_false]
  by_cases hpos : 0 < request.artifact.ttl_seconds.getD default_ttl_seconds
  · simp only [hpos, if_pos, gt_iff_lt, redisOps, RedisCache.set, if_true, hns]
    have : (0 : Int) < (request.artifact.ttl_seconds.getD default_ttl_seconds : Nat) := by
      exact_mod_cast hpos
    simp [this]
  · simp [hpos, redisOps, RedisCache.set]

/-- C2 amended: the effective TTL is `artifact.ttl_seconds` whenever it is
present — including an explicit `0` — and `default_ttl_seconds` only when
absent; `expires_at` is `none` iff the effective value is `0`, else
`now + effective`.  Stated for a store that passes validation, over the
Redis-backed facade. -/
theorem store_expiry_amended (policy : PolicyEngine) (default_ttl_seconds : Nat)
    (api_key : Option String) (request : StoreRequest) (now : Int) (st : RedisState)
    (m : Metrics)
    (h1 : isBlank request.key = false)
    (h2 : isBlank request.artifact.hash = false)
    (h3 : (match api_key with
           | some k => policy.validate_api_key request.artifact.policy.tenant k
           | none => Except.ok ()) = Except.ok ())
    (h4 : policy.validate_ttl request.artifact.policy.tenant request.artifact.ttl_seconds
            = Except.ok ())
    (h5 : policy.validate_region request.artifact.policy.tenant request.artifact.policy.region
            = Except.ok ()) :
    handle_store (redisOps now) policy default_ttl_seconds api_key request now st m
      = (Except.ok { key := request.key, status := StoreStatus.created,
                     hash := request.artifact.hash,
                     expires_at :=
                       if 0 < request.artifact.ttl_seconds.getD default_ttl_seconds then
                         some (now + durationSeconds
                           (request.artifact.ttl_seconds.getD default_ttl_seconds : Nat))
                       else none },
         insertPhys st (build_redis_key request.key)
           { key := request.key, artifact := request.artifact, stored_at := now,
             expires_at :=
               if 0 < request.artifact.ttl_seconds.getD default_ttl_seconds then
                 some (now + durationSeconds
                   (request.artifact.ttl_seconds.getD default_ttl_seconds : Nat))
               else none },
         m.record_cache_store) :=
  handle_store_redis_ok policy default_ttl_seconds api_key request now st m h1 h2 h3 h4 h5

/-- Witness for C2's amended theorem: a validated store with
`ttl_seconds = 60` at instant 0 stores an expiry of 60 s. -/
theorem store_expiry_amended_witness :
    handle_store (redisOps 0) ⟨[]⟩ 300 none ⟨"k", demoArtifact⟩ 0 [] demoMetrics
      = (Except.ok { key := "k", status := StoreStatus.created, hash := "h1",
                     expires_at := some 60000 },
         [(build_redis_key "k", { key := "k", artifact := demoArtifact, stored_at := 0,
                                  expires_at := some 60000 })],
         demoMetrics.record_cache_store) := by
  have h := store_expiry_amended ⟨[]⟩ 300 none ⟨"k", demoArtifact⟩ 0 [] demoMetrics
    (by decide) (by decide) rfl rfl rfl
  simpa using h

/-! ### C3: lazy expiry in the backend `get` -/

/-- C3: `RedisCache::get` never yields a record whose `expires_at` is at or
before `now`; when the stored record is expired, `get` deletes it (when the
deletion connection works) and reports a plain miss, and a failed deletion
still reports the miss rather than an error. -/
theorem get_never_returns_expired (conn delete_ok : Bool) (now : Int)
    (st : RedisState) (key : String) :
    (∀ r : CachedArtifact, ∀ e : Int,
        (RedisCache.get conn delete_ok now st key).1 = Except.ok (some r) →
        r.expires_at = some e → now < e)
    ∧ (∀ r : CachedArtifact, ∀ e : Int, conn = true →
        lookupPhys st (build_redis_key key) = some r →
        r.expires_at = some e → e ≤ now →
        RedisCache.get conn delete_ok now st key
          = (Except.ok none, if delete_ok then erasePhys st (build_redis_key key) else st)) := by
  constructor
  · intro r e hres hexp
    by_cases hc : conn
    · subst hc
      simp only [RedisCache.get, if_true] at hres
      cases hl : lookupPhys st (build_redis_key key) with
      | none => rw [hl] at hres; simp at hres
      | some artifact =>
        rw [hl] at hres
        dsimp only at hres
        cases ha : artifact.expires_at with
        | none =>
          rw [ha] at hres
          simp at hres
          rw [hres] at ha
          rw [ha] at hexp
          cases hexp
        | some d =>
          rw [ha] at hres
          by_cases hd : d ≤ now
          · simp [hd] at hres
          · simp [hd] at hres
            rw [hres] at ha
            rw [ha] at hexp
            cases hexp
            omega
    · simp [RedisCache.get, hc] at hres
  · intro r e hc hl hexp hle
    subst hc
    simp only [RedisCache.get, if_true]
    rw [hl]
    dsimp only
    rw [hexp]
    simp [hle]

/-- Witness for C3: the record expiring at 60 s, read at 70 s, is reported
as a miss both when the expiry deletion works and when it fails. -/
theorem get_never_returns_expired_witness :
    RedisCache.get true false 70000 demoState "k" = (Except.ok none, demoState)
    ∧ RedisCache.get true true 70000 demoState "k"
        = (Except.ok none, erasePhys demoState (build_redis_key "k")) := by
  have h1 := (get_never_returns_expired true false 70000 demoState "k").2
    demoRecord 60000 rfl (by decide) (by decide) (by decide)
  have h2 := (get_never_returns_expired true true 70000 demoState "k").2
    demoRecord 60000 rfl (by decide) (by decide) (by decide)
  exact ⟨by simpa using h1, by simpa using h2⟩

/-! ### C4: hydration expiry fallback chain -/

/-- Counterexample to C4: the code takes the upstream record's explicit
`expires_at` unconditionally, so a stale upstream expiry (10 s in the past,
not a positive-TTL instant) is chosen even though candidate (b) would have
yielded `now + 60 s`. -/
theorem hydrate_stale_expiry_counterexample :
    hydrate_expires_at demoUpstreamStale 300 0 = some (-10000)
    ∧ spec_hydrate_expires_at demoUpstreamStale 300 0 = some 60000
    ∧ ¬ ((0 : Int) < -10000) := by decide

/-- C4 amended: the hydration expiry equals the amended fallback chain —
(a) unconditionally when present, then (b), (c), (d) guarded by positive
TTL values, else none. -/
theorem hydrate_expiry_amended (r : LookupResponse) (default_ttl_seconds : Nat) (now : Int) :
    hydrate_expires_at r default_ttl_seconds now
      = amended_hydrate_expires_at r default_ttl_seconds now := by
  unfold hydrate_expires_at amended_hydrate_expires_at
  cases he : r.expires_at with
  | some e => simp
  | none =>
    cases ht : r.ttl_remaining_seconds with
    | some t =>
      by_cases hpos : 0 < t
      · simp [hpos]
      · cases ha : r.artifact.ttl_seconds with
        | some u =>
          by_cases hu : 0 < u
          · simp [hpos, hu]
          · simp [hpos, hu]
        | none => simp [hpos]
    | none =>
      cases ha : r.artifact.ttl_seconds with
      | some u =>
        by_cases hu : 0 < u
        · simp [hu]
        · simp [hu]
      | none => simp

/-! ### C9: native TTL handed to the backend -/

/-- Counterexample to C9: with 1.5 s of remaining life the code hands the
backend a native TTL of 1 s (`num_seconds` truncates) where the claimed
ceiling is 2 s; and with 0.5 s remaining the code refuses the write as
"already expired" even though the claimed ceiling TTL is 1 s, i.e.
positive. -/
theorem set_native_ttl_counterexample :
    (RedisCache.set true 0 [] "k" demoArtifact (some 1500)).1
      = Except.ok ({ key := "k", artifact := demoArtifact, stored_at := 0,
                     expires_at := some 1500 }, some 1)
    ∧ spec_native_ttl 1500 0 = 2
    ∧ (1 : Int) ≠ 2
    ∧ (RedisCache.set true 0 [] "k" demoArtifact (some 500)).1
        = Except.error (AppError.bad_request "Artifact already expired")
    ∧ 0 < spec_native_ttl 500 0 := by decide

/-- C9 amended: with `expires_at` present, the native TTL handed to the
storage layer is `(expires_at − now).num_seconds` (whole seconds truncated
toward zero, hence the floor for future instants); when that value is not
positive the write fails with the "already expired" `BadRequest` and the
keyspace is untouched. -/
theorem set_native_ttl_amended (now : Int) (st : RedisState) (key : String)
    (artifact : ArtifactPayload) (exp : Int) :
    (0 < numSeconds (exp - now) →
      RedisCache.set true now st key artifact (some exp)
        = (Except.ok ({ key := key, artifact := artifact, stored_at := now,
                        expires_at := some exp },
                      some (numSeconds (exp - now)).toNat),
           insertPhys st (build_redis_key key)
             { key := key, artifact := artifact, stored_at := now, expires_at := some exp }))
    ∧ (numSeconds (exp - now) ≤ 0 →
      RedisCache.set true now st key artifact (some exp)
        = (Except.error (AppError.bad_request "Artifact already expired"), st)) := by
  constructor
  · intro h
    simp [RedisCache.set, h]
  · intro h
    have h' : ¬ (0 < numSeconds (exp - now)) := by omega
    simp [RedisCache.set, h']

/-- Witness for C9's amended theorem at 1.5 s and 0.5 s of remaining life. -/
theorem set_native_ttl_amended_witness :
    (0 < numSeconds (1500 - 0)
      ∧ RedisCache.set true 0 [] "k" demoArtifact (some 1500)
          = (Except.ok ({ key := "k", artifact := demoArtifact, stored_at := 0,
                          expires_at := some 1500 }, some (numSeconds (1500 - 0)).toNat),
             insertPhys [] (build_redis_key "k")
               { key := "k", artifact := demoArtifact, stored_at := 0, expires_at := some 1500 }))
    ∧ (numSeconds (500 - 0) ≤ 0
      ∧ RedisCache.set true 0 [] "k" demoArtifact (some 500)
          = (Except.error (AppError.bad_request "Artifact already expired"), [])) :=
  ⟨⟨by decide, (set_native_ttl_amended 0 [] "k" demoArtifact 1500).1 (by decide)⟩,
   ⟨by decide, (set_native_ttl_amended 0 [] "k" demoArtifact 500).2 (by decide)⟩⟩

/-! ### C10: empty `delete_many` and empty purges -/

/-- C10: `delete_many` on an empty key list returns `0` before any backend
command — even over a dead connection — so a purge by tenant or by
provenance hash that matches no keys succeeds with `purged = 0`. -/
theorem delete_many_empty_purge_zero (now : Int) (policy : PolicyEngine)
    (api_key : Option String) (t h : String) (st : RedisState) (m : Metrics)
    (hauth : (match api_key with
              | some k => policy.validate_api_key t k
              | none => Except.ok ()) = Except.ok ())
    (hscanT : RedisCache.scan_by_pattern true st (t ++ ":*") = (Except.ok [], st))
    (hscanAll : RedisCache.scan_by_pattern true st "*" = (Except.ok [], st)) :
    (∀ conn : Bool, ∀ st' : RedisState,
      RedisCache.delete_many conn st' [] = (Except.ok 0, st'))
    ∧ handle_purge (redisOps now) policy api_key ⟨[], some t, none⟩ st m
        = (Except.ok ⟨0⟩, st, m.record_cache_purge 0)
    ∧ handle_purge (redisOps now) policy api_key ⟨[], none, some h⟩ st m
        = (Except.ok ⟨0⟩, st, m.record_cache_purge 0) := by
  refine ⟨fun conn st' => by simp [RedisCache.delete_many], ?_, ?_⟩
  · unfold handle_purge
    simp only [hauth]
    simp [redisOps, hscanT, RedisCache.delete_many]
  · unfold handle_purge
    simp only [hauth]
    simp [redisOps, hscanAll, provenance_to_purge, RedisCache.delete_many]

/-- Witness for C10 over the empty keyspace: both no-match purges succeed
with zero purged and a dead-connection `delete_many []` still returns 0. -/
theorem delete_many_empty_purge_zero_witness :
    RedisCache.delete_many false [] [] = (Except.ok 0, [])
    ∧ handle_purge (redisOps 0) ⟨[]⟩ none ⟨[], some "t1", none⟩ [] demoMetrics
        = (Except.ok ⟨0⟩, [], demoMetrics.record_cache_purge 0)
    ∧ handle_purge (redisOps 0) ⟨[]⟩ none ⟨[], none, some "h1"⟩ [] demoMetrics
        = (Except.ok ⟨0⟩, [], demoMetrics.record_cache_purge 0) := by
  have h := delete_many_empty_purge_zero 0 ⟨[]⟩ none "t1" "h1" [] demoMetrics rfl
    (by decide) (by decide)
  exact ⟨h.1 false [], h.2.1, h.2.2⟩

/-! ### C5: propagation of storage-backend errors -/

/-- Counterexample to C5: in the provenance-hash purge the per-key `get`
result is matched with `if let Ok(Some(..))`, so a backend `get` error is
silently skipped — the handler succeeds with `purged = 0` instead of
surfacing an Internal error. -/
theorem purge_swallows_get_error_counterexample :
    faultyGetOps.get () "k1" = (Except.error (AppError.Internal "Redis GET failed"), ())
    ∧ handle_purge faultyGetOps ⟨[]⟩ none ⟨[], none, some "h1"⟩ () demoMetrics
        = (Except.ok ⟨0⟩, (), demoMetrics.record_cache_purge 0) := by
  exact ⟨rfl, by decide⟩

/-- C5 amended: storage-backend errors map to HTTP 500 and propagate out of
the handlers — `get` in lookup, `set` in store, `delete_many` in purge by
keys, `scan_by_pattern` in purge by tenant and by provenance — except that
a `get` error on an individual key inside the provenance scan of purge is
skipped rather than surfaced. -/
theorem backend_errors_propagate {σ : Type} (ops : CacheOps σ) (policy : PolicyEngine)
    (default_ttl_seconds : Nat)
    (upstream : Option (String → Option String → Except AppError (Option LookupResponse)))
    (api_key : Option String) (now : Int) (st st' : σ) (m : Metrics) (msg : String) :
    AppError.status_code (AppError.Internal msg) = 500
    ∧ (∀ query : LookupQuery, ∀ e : AppError,
        isBlank query.key = false →
        ops.get st query.key = (Except.error e, st') →
        handle_lookup ops policy default_ttl_seconds upstream api_key query now st m
          = (Except.error e, st', m))
    ∧ (∀ request : StoreRequest, ∀ e : AppError,
        isBlank request.key = false →
        isBlank request.artifact.hash = false →
        (match api_key with
         | some k => policy.validate_api_key request.artifact.policy.tenant k
         | none => Except.ok ()) = Except.ok () →
        policy.validate_ttl request.artifact.policy.tenant request.artifact.ttl_seconds
          = Except.ok () →
        policy.validate_region request.artifact.policy.tenant request.artifact.policy.region
          = Except.ok () →
        ops.set st request.key request.artifact
          (if request.artifact.ttl_seconds.getD default_ttl_seconds > 0 then
             some (now + durationSeconds
               (request.artifact.ttl_seconds.getD default_ttl_seconds : Nat))
           else none) = (Except.error e, st') →
        handle_store ops policy default_ttl_seconds api_key request now st m
          = (Except.error e, st', m))
    ∧ (∀ request : PurgeRequest, ∀ e : AppError,
        (match request.tenant with
         | some tenant_id =>
           match api_key with
           | some k => policy.validate_api_key tenant_id k
           | none => Except.ok ()
         | none => Except.ok ()) = Except.ok () →
        request.keys ≠ [] →
        ops.delete_many st request.keys = (Except.error e, st') →
        handle_purge ops policy api_key request st m = (Except.error e, st', m))
    ∧ (∀ tenant_id : String, ∀ e : AppError,
        (match api_key with
         | some k => policy.validate_api_key tenant_id k
         | none => Except.ok ()) = Except.ok () →
        ops.scan_by_pattern st (tenant_id ++ ":*") = (Except.error e, st') →
        handle_purge ops policy api_key ⟨[], some tenant_id, none⟩ st m
          = (Except.error e, st', m))
    ∧ (∀ prov_hash : String, ∀ e : AppError,
        ops.scan_by_pattern st "*" = (Except.error e, st') →
        handle_purge ops policy api_key ⟨[], none, some prov_hash⟩ st m
          = (Except.error e, st', m)) := by
  refine ⟨rfl, ?_, ?_, ?_, ?_, ?_⟩
  · intro query e hkey hget
    simp [handle_lookup, hkey, hget]
  · intro request e h1 h2 h3 h4 h5 hset
    unfold handle_store
    simp only [h1, h2, h3, h4, h5, PolicyEngine.validate_compliance, Bool.false_eq_true,
      if_false]
    simp [hset]
  · intro request e hauth hk hdel
    have hemp : request.keys.isEmpty = false := by
      cases hkeys : request.keys with
      | nil => exact absurd hkeys hk
      | cons a as => rfl
    unfold handle_purge
    simp only [hauth]
    simp [hemp, hdel]
  · intro tenant_id e hauth hscan
    unfold handle_purge
    simp only [hauth]
    simp [hscan]
  · intro prov_hash e hscan
    unfold handle_purge
    simp [hscan]

/-- Witness for C5's amended theorem over the all-errors backend. -/
theorem backend_errors_propagate_witness :
    AppError.status_code (AppError.Internal "Redis GET failed") = 500
    ∧ handle_lookup errOps ⟨[]⟩ 300 none none ⟨"k", none⟩ 0 () demoMetrics
        = (Except.error (AppError.Internal "Redis GET failed"), (), demoMetrics)
    ∧ handle_store errOps ⟨[]⟩ 300 none ⟨"k", demoArtifact⟩ 0 () demoMetrics
        = (Except.error (AppError.Internal "Redis SETEX failed"), (), demoMetrics)
    ∧ handle_purge errOps ⟨[]⟩ none ⟨["k"], none, none⟩ () demoMetrics
        = (Except.error (AppError.Internal "Redis DEL failed"), (), demoMetrics)
    ∧ handle_purge errOps ⟨[]⟩ none ⟨[], some "t1", none⟩ () demoMetrics
        = (Except.error (AppError.Internal "Redis SCAN failed"), (), demoMetrics)
    ∧ handle_purge errOps ⟨[]⟩ none ⟨[], none, some "h1"⟩ () demoMetrics
        = (Except.error (AppError.Internal "Redis SCAN failed"), (), demoMetrics) := by
  have h := backend_errors_propagate errOps ⟨[]⟩ 300 none none 0 () () demoMetrics
    "Redis GET failed"
  exact ⟨h.1, h.2.1 ⟨"k", none⟩ _ (by decide) rfl,
         h.2.2.1 ⟨"k", demoArtifact⟩ _ (by decide) (by decide) rfl rfl rfl rfl,
         h.2.2.2.1 ⟨["k"], none, none⟩ _ rfl (by decide) rfl,
         h.2.2.2.2.1 "t1" _ rfl rfl,
         h.2.2.2.2.2 "h1" _ rfl⟩

/-! ### C6: purge discriminator priority -/

/-- C6: `handle_purge` selects exactly one mode — non-empty explicit keys
first, then tenant, then provenance hash — and rejects a request that
supplies none of the three with
`BadRequest("must specify keys, tenant, or provenance_hash")`. -/
theorem purge_discriminator {σ : Type} (ops : CacheOps σ) (policy : PolicyEngine)
    (api_key : Option String) (request : PurgeRequest) (st : σ) (m : Metrics)
    (hauth : (match request.tenant with
              | some tenant_id =>
                match api_key with
                | some k => policy.validate_api_key tenant_id k
                | none => Except.ok ()
              | none => Except.ok ()) = Except.ok ()) :
    (request.keys ≠ [] →
      handle_purge ops policy api_key request st m
        = match ops.delete_many st request.keys with
          | (Except.error e, st') => (Except.error e, st', m)
          | (Except.ok purged, st') => (Except.ok ⟨purged⟩, st', m.record_cache_purge purged))
    ∧ (∀ tenant_id : String, request.keys = [] → request.tenant = some tenant_id →
      handle_purge ops policy api_key request st m
        = match ops.scan_by_pattern st (tenant_id ++ ":*") with
          | (Except.error e, st') => (Except.error e, st', m)
          | (Except.ok keys, st') =>
            match ops.delete_many st' keys with
            | (Except.error e, st'') => (Except.error e, st'', m)
            | (Except.ok purged, st'') => (Except.ok ⟨purged⟩, st'', m.record_cache_purge purged))
    ∧ (∀ prov_hash : String, request.keys = [] → request.tenant = none →
        request.provenance_hash = some prov_hash →
      handle_purge ops policy api_key request st m
        = match ops.scan_by_pattern st "*" with
          | (Except.error e, st') => (Except.error e, st', m)
          | (Except.ok keys, st') =>
            match ops.delete_many (provenance_to_purge ops prov_hash keys st').2
                (provenance_to_purge ops prov_hash keys st').1 with
            | (Except.error e, st'') => (Except.error e, st'', m)
            | (Except.ok purged, st'') => (Except.ok ⟨purged⟩, st'', m.record_cache_purge purged))
    ∧ (request.keys = [] → request.tenant = none → request.provenance_hash = none →
      handle_purge ops policy api_key request st m
        = (Except.error (AppError.bad_request "must specify keys, tenant, or provenance_hash"),
           st, m)) := by
  refine ⟨?_, ?_, ?_, ?_⟩
  · intro hk
    have hemp : request.keys.isEmpty = false := by
      cases hkeys : request.keys with
      | nil => exact absurd hkeys hk
      | cons a as => rfl
    unfold handle_purge
    simp only [hauth]
    simp [hemp]
  · intro tenant_id hk ht
    unfold handle_purge
    simp only [hauth]
    simp [hk, ht]
  · intro prov_hash hk ht hp
    unfold handle_purge
    simp only [hauth]
    simp [hk, ht, hp]
  · intro hk ht hp
    unfold handle_purge
    simp only [hauth]
    simp [hk, ht, hp]

/-- Witness for C6: with all three discriminators supplied, the explicit
keys are the ones purged. -/
theorem purge_discriminator_witness :
    handle_purge (redisOps 0) ⟨[]⟩ none ⟨["k"], some "t1", some "h1"⟩ demoState demoMetrics
      = (Except.ok ⟨1⟩, [], demoMetrics.record_cache_purge 1) := by
  have h := (purge_discriminator (redisOps 0) ⟨[]⟩ none ⟨["k"], some "t1", some "h1"⟩
    demoState demoMetrics rfl).1 (by decide)
  exact h.trans (by decide)

/-! ### C8: invariant I4 on stored records -/

/-- Counterexample to C8 (invariant I4): hydrating from an upstream reply
whose artifact carries `ttl_seconds = 100` but whose explicit `expires_at`
lies 50 s after `now` stores a record with `ttl_seconds = 100` yet
`expires_at − stored_at = 50` whole seconds. -/
theorem stored_ttl_invariant_counterexample :
    (handle_lookup (redisOps 0) ⟨[]⟩ 300 (some (fun _ _ => Except.ok (some demoUpstream100)))
        none ⟨"k", none⟩ 0 [] demoMetrics).2.1
      = [(build_redis_key "k",
          { key := "k", artifact := demoArtifact100, stored_at := 0, expires_at := some 50000 })]
    ∧ demoArtifact100.ttl_seconds = some 100
    ∧ numSeconds (50000 - 0) = 50
    ∧ (100 : Int) ≠ 50 := by decide

/-- C8 amended: invariant I4 holds for records written by `handle_store`:
a validated store whose artifact carries a positive `ttl_seconds = t`
stores a record with `stored_at = now`, `expires_at = now + t` seconds, so
`expires_at − stored_at` is exactly `t` whole seconds.  (Hydrated records
may violate I4 when the upstream supplies an explicit `expires_at`.) -/
theorem stored_ttl_invariant_store_path (policy : PolicyEngine) (default_ttl_seconds : Nat)
    (api_key : Option String) (request : StoreRequest) (now : Int) (st : RedisState)
    (m : Metrics)
    (h1 : isBlank request.key = false)
    (h2 : isBlank request.artifact.hash = false)
    (h3 : (match api_key with
           | some k => policy.validate_api_key request.artifact.policy.tenant k
           | none => Except.ok ()) = Except.ok ())
    (h4 : policy.validate_ttl request.artifact.policy.tenant request.artifact.ttl_seconds
            = Except.ok ())
    (h5 : policy.validate_region request.artifact.policy.tenant request.artifact.policy.region
            = Except.ok ())
    (t : Nat) (ht : request.artifact.ttl_seconds = some t) (htpos : 0 < t) :
    ∃ r : CachedArtifact,
      lookupPhys (handle_store (redisOps now) policy default_ttl_seconds api_key
          request now st m).2.1 (build_redis_key request.key) = some r
      ∧ r.artifact.ttl_seconds = some t
      ∧ r.stored_at = now
      ∧ r.expires_at = some (now + durationSeconds (t : Int))
      ∧ numSeconds ((now + durationSeconds (t : Int)) - r.stored_at) = t := by
  have h := handle_store_redis_ok policy default_ttl_seconds api_key request now st m
    h1 h2 h3 h4 h5
  refine ⟨{ key := request.key, artifact := request.artifact, stored_at := now,
            expires_at := some (now + durationSeconds (t : Int)) }, ?_, ?_, rfl, rfl, ?_⟩
  · rw [h]
    simp only [ht, Option.getD_some, htpos, if_pos]
    exact lookupPhys_insertPhys st (build_redis_key request.key) _
  · exact ht
  · have harith : now + durationSeconds (t : Int) - now = durationSeconds (t : Int) := by ring
    rw [harith, numSeconds_duration]

/-- Witness for C8's amended theorem: a validated 60-second store at
instant 0. -/
theorem stored_ttl_invariant_store_path_witness :
    ∃ r : CachedArtifact,
      lookupPhys (handle_store (redisOps 0) ⟨[]⟩ 300 none ⟨"k", demoArtifact⟩
          0 [] demoMetrics).2.1 (build_redis_key "k") = some r
      ∧ r.artifact.ttl_seconds = some 60
      ∧ r.stored_at = 0
      ∧ r.expires_at = some (0 + durationSeconds 60)
      ∧ numSeconds ((0 + durationSeconds 60) - r.stored_at) = 60 :=
  stored_ttl_invariant_store_path ⟨[]⟩ 300 none ⟨"k", demoArtifact⟩ 0 [] demoMetrics
    (by decide) (by decide) rfl rfl rfl 60 rfl (by decide)

/-! ### C7: exactness of purge by provenance hash -/

/-- Rebuilding a string from its characters is the identity. -/
theorem stringMk_data (s : String) : String.mk s.data = s := rfl

/-- A lone `*` matches any string. -/
theorem globMatch_star (s : List Char) : globMatch ['*'] s = true := by
  simp only [globMatch, if_pos]
  rw [List.any_eq_true]
  exact ⟨[], (List.mem_tails _ _).mpr List.nil_suffix, rfl⟩

/-- A pattern `pre*` (no `*` inside `pre`) matches `pre` followed by
anything. -/
theorem globMatch_pre_star (pre s : List Char) (hstar : '*' ∉ pre) :
    globMatch (pre ++ ['*']) (pre ++ s) = true := by
  induction pre with
  | nil => simpa using globMatch_star s
  | cons c cs ih =>
    have hc : c ≠ '*' := fun h => hstar (h ▸ List.mem_cons_self c cs)
    have ihs : globMatch (cs ++ ['*']) (cs ++ s) = true :=
      ih (fun h => hstar (List.mem_cons_of_mem c h))
    simp [globMatch, hc, ihs]

/-- Stripping a leading run that is literally there succeeds. -/
theorem dropPre_append (p s : List Char) : dropPre p (p ++ s) = some s := by
  induction p with
  | nil => rfl
  | cons c cs ih => simp [dropPre, ih]

/-- Physical keys determine logical keys. -/
theorem build_redis_key_inj : Function.Injective build_redis_key := by
  intro a b hab
  unfold build_redis_key at hab
  have h := congrArg String.data hab
  rw [String.data_append, String.data_append] at h
  exact String.ext (List.append_cancel_left h)

/-- Characters of a physical key: namespace then logical key. -/
theorem data_build_redis_key (k : String) :
    (build_redis_key k).data = artifactNs.data ++ k.data := by
  unfold build_redis_key artifactNs
  rw [String.data_append]

/-- `scan_by_pattern "*"` over a namespaced keyspace lists every logical
key, in keyspace order. -/
theorem scan_star_toPhys (ls : List (String × CachedArtifact)) :
    RedisCache.scan_by_pattern true (toPhys ls) "*"
      = (Except.ok (ls.map Prod.fst), toPhys ls) := by
  unfold RedisCache.scan_by_pattern
  simp only [if_pos]
  refine congrArg (fun keys => (Except.ok keys, toPhys ls)) ?_
  have hdata : (artifactNs ++ "*").data = artifactNs.data ++ ['*'] := by
    rw [String.data_append]
  induction ls with
  | nil => rfl
  | cons e es ih =>
    have hmatch : globMatch (artifactNs ++ "*").data (build_redis_key e.1).data = true := by
      rw [hdata, data_build_redis_key]
      exact globMatch_pre_star artifactNs.data e.1.data (by decide)
    have hdrop : dropPre artifactNs.data (build_redis_key e.1).data = some e.1.data := by
      rw [data_build_redis_key]; exact dropPre_append _ _
    simp only [toPhys, List.map_cons, List.filterMap_cons, hmatch, if_pos, hdrop,
      Option.map_some, stringMk_data]
    exact congrArg (fun l => e.1 :: l) ih

/-- Physical lookup of a logical entry, under duplicate-free keys. -/
theorem lookupPhys_toPhys (ls : List (String × CachedArtifact))
    (hnodup : (ls.map Prod.fst).Nodup) (k : String) (r : CachedArtifact)
    (hmem : (k, r) ∈ ls) :
    lookupPhys (toPhys ls) (build_redis_key k) = some r := by
  induction ls with
  | nil => cases hmem
  | cons e es ih =>
    rcases List.mem_cons.mp hmem with heq | htail
    · subst heq
      simp [lookupPhys, toPhys, List.lookup]
    · have hk : k ≠ e.1 := by
        intro h
        have : e.1 ∈ es.map Prod.fst := h ▸ List.mem_map_of_mem Prod.fst htail
        exact (List.nodup_cons.mp (by simpa [List.map_cons] using hnodup)).1 this
      have hbk : (build_redis_key k == build_redis_key e.1) = false := by
        simp [build_redis_key_inj.ne hk]
      simp only [toPhys, List.map_cons, lookupPhys, List.lookup, hbk]
      exact ih ((List.nodup_cons.mp (by simpa [List.map_cons] using hnodup)).2) htail

/-- `RedisCache::get` on an unexpired entry returns it without touching
the keyspace. -/
theorem get_toPhys_fresh (now : Int) (ls : List (String × CachedArtifact))
    (hnodup : (ls.map Prod.fst).Nodup)
    (hfresh : ∀ e ∈ ls, ∀ d : Int, e.2.expires_at = some d → now < d)
    (k : String) (r : CachedArtifact) (hmem : (k, r) ∈ ls) :
    RedisCache.get true true now (toPhys ls) k = (Except.ok (some r), toPhys ls) := by
  have hl := lookupPhys_toPhys ls hnodup k r hmem
  cases hre : r.expires_at with
  | none => simp [RedisCache.get, hl, hre]
  | some d =>
    have hd : now < d := hfresh (k, r) hmem d hre
    have hnd : ¬ (d ≤ now) := by omega
    simp [RedisCache.get, hl, hre, hnd]

/-- When `get` leaves the state alone, the provenance loop selects exactly
the scanned keys whose fetched record carries the hash. -/
theorem provenance_to_purge_pure {σ : Type} (ops : CacheOps σ) (h : String)
    (ks : List String) (st : σ)
    (hget : ∀ k ∈ ks, (ops.get st k).2 = st) :
    provenance_to_purge ops h ks st
      = (ks.filter (fun k => match (ops.get st k).1 with
          | Except.ok (some r) => provMatches h r
          | _ => false), st) := by
  induction ks with
  | nil => rfl
  | cons k rest ih =>
    have hst : (ops.get st k).2 = st := hget k (List.mem_cons_self k rest)
    have ihr := ih (fun x hx => hget x (List.mem_cons_of_mem k hx))
    rcases hres : ops.get st k with ⟨res, st₂⟩
    have hst2 : st₂ = st := by rw [hres] at hst; exact hst
    subst hst2
    unfold provenance_to_purge
    rw [hres]
    cases res with
    | error e => simp [List.filter_cons, hres, ihr]
    | ok o =>
      cases o with
      | none => simp [List.filter_cons, hres, ihr]
      | some artifact =>
        by_cases hh : provMatches h artifact
        · simp [List.filter_cons, hres, hh, ihr]
        · simp [List.filter_cons, hres, hh, ihr]

/-- Filtering keys by a predicate that agrees entry-wise with an entry
predicate. -/
theorem filter_fst_congr {α β : Type} (ls : List (α × β)) (g : α → Bool)
    (q : α × β → Bool) (hag : ∀ e ∈ ls, g e.1 = q e) :
    (ls.map Prod.fst).filter g = (ls.filter q).map Prod.fst := by
  induction ls with
  | nil => rfl
  | cons e es ih =>
    have h0 := hag e (List.mem_cons_self e es)
    have ihr := ih (fun x hx => hag x (List.mem_cons_of_mem e hx))
    by_cases hq : q e
    · simp [List.filter_cons, h0, hq, ihr]
    · simp [List.filter_cons, h0, hq, ihr]

/-- With duplicate-free keys an entry is determined by its key. -/
theorem keys_nodup_entry_unique {α β : Type} (ls : List (α × β))
    (hnodup : (ls.map Prod.fst).Nodup) {e₁ e₂ : α × β}
    (h₁ : e₁ ∈ ls) (h₂ : e₂ ∈ ls) (heq : e₁.1 = e₂.1) : e₁ = e₂ := by
  induction ls with
  | nil => cases h₁
  | cons e es ih =>
    rw [List.map_cons, List.nodup_cons] at hnodup
    rcases List.mem_cons.mp h₁ with rfl | t₁
    · rcases List.mem_cons.mp h₂ with rfl | t₂
      · rfl
      · exact absurd (heq ▸ List.mem_map_of_mem Prod.fst t₂) hnodup.1
    · rcases List.mem_cons.mp h₂ with rfl | t₂
      · exact absurd (heq ▸ List.mem_map_of_mem Prod.fst t₁) hnodup.1
      · exact ih hnodup.2 t₁ t₂

/-- Folding single-key deletes equals filtering out the deleted keys. -/
theorem foldl_erasePhys (ks : List String) (st : RedisState) :
    ks.foldl erasePhys st = st.filter (fun e => !(ks.contains e.1)) := by
  induction ks generalizing st with
  | nil => simp
  | cons k rest ih =>
    rw [List.foldl_cons, ih]
    unfold erasePhys
    rw [List.filter_filter]
    apply List.filter_congr
    intro e _
    by_cases hek : e.1 = k
    · simp [hek, List.contains_cons]
    · simp [hek, List.contains_cons]

/-- Membership testing commutes with an injective map. -/
theorem contains_map_inj {α β : Type} [DecidableEq α] [DecidableEq β]
    {f : α → β} (hf : Function.Injective f) (l : List α) (a : α) :
    (l.map f).contains (f a) = l.contains a := by
  show (l.map f).elem (f a) = l.elem a
  rw [List.elem_eq_mem, List.elem_eq_mem]
  simp [List.mem_map_of_injective hf]

/-- `delete_many` of duplicate-free, present logical keys reports their
count and leaves exactly the other entries. -/
theorem delete_many_toPhys (ls : List (String × CachedArtifact)) (sub : List String)
    (hnodup : (ls.map Prod.fst).Nodup) (hsubnodup : sub.Nodup)
    (hsub : ∀ k ∈ sub, ∃ r, (k, r) ∈ ls) :
    RedisCache.delete_many true (toPhys ls) sub
      = (Except.ok sub.length, toPhys (ls.filter (fun e => !(sub.contains e.1)))) := by
  by_cases hemp : sub.isEmpty
  · have hnil : sub = [] := List.isEmpty_iff.mp hemp
    subst hnil
    simp [RedisCache.delete_many]
  · have hemp' : sub.isEmpty = false := by simpa using hemp
    unfold RedisCache.delete_many
    rw [hemp']
    simp only [Bool.false_eq_true, if_false, if_pos]
    have hded : (sub.map build_redis_key).dedup = sub.map build_redis_key :=
      List.dedup_eq_self.mpr (hsubnodup.map build_redis_key_inj)
    have hall : ∀ pk ∈ sub.map build_redis_key, (lookupPhys (toPhys ls) pk).isSome = true := by
      intro pk hpk
      obtain ⟨k, hk, rfl⟩ := List.mem_map.mp hpk
      obtain ⟨r, hr⟩ := hsub k hk
      rw [lookupPhys_toPhys ls hnodup k r hr]
      rfl
    have hfilter : (sub.map build_redis_key).filter
        (fun pk => (lookupPhys (toPhys ls) pk).isSome) = sub.map build_redis_key :=
      List.filter_eq_self.mpr hall
    rw [hded, hfilter, List.length_map]
    have hstate : (sub.map build_redis_key).foldl erasePhys (toPhys ls)
        = toPhys (ls.filter (fun e => !(sub.contains e.1))) := by
      rw [foldl_erasePhys]
      unfold toPhys
      rw [List.filter_map]
      refine congrArg (List.map _) (List.filter_congr ?_)
      intro e _
      simp only [Function.comp_apply]
      rw [contains_map_inj build_redis_key_inj]
    rw [hstate]

/-- The facade's `delete_many` is the healthy-connection Redis one. -/
theorem redisOps_delete_many_eq (now : Int) (st : RedisState) (keys : List String) :
    (redisOps now).delete_many st keys = RedisCache.delete_many true st keys := rfl

/-- C7: over a duplicate-free, unexpired keyspace, purge by
`provenance_hash` removes exactly the records whose stored `artifact.hash`
equals the supplied hash or whose provenance list contains an entry with
that hash — every such record is removed, no other record is, and the
reported `purged` count is their number. -/
theorem purge_by_provenance_exact (now : Int) (policy : PolicyEngine)
    (api_key : Option String) (prov_hash : String)
    (ls : List (String × CachedArtifact)) (m : Metrics)
    (hnodup : (ls.map Prod.fst).Nodup)
    (hfresh : ∀ e ∈ ls, ∀ d : Int, e.2.expires_at = some d → now < d) :
    handle_purge (redisOps now) policy api_key ⟨[], none, some prov_hash⟩ (toPhys ls) m
      = (Except.ok ⟨(ls.filter (fun e => provMatches prov_hash e.2)).length⟩,
         toPhys (ls.filter (fun e => !provMatches prov_hash e.2)),
         m.record_cache_purge (ls.filter (fun e => provMatches prov_hash e.2)).length) := by
  have hget : ∀ k ∈ ls.map Prod.fst, ((redisOps now).get (toPhys ls) k).2 = toPhys ls := by
    intro k hk
    obtain ⟨e, hmem, rfl⟩ := List.mem_map.mp hk
    show (RedisCache.get true true now (toPhys ls) e.1).2 = toPhys ls
    rw [get_toPhys_fresh now ls hnodup hfresh e.1 e.2 hmem]
  have hpred : ∀ e ∈ ls, (fun k => match ((redisOps now).get (toPhys ls) k).1 with
      | Except.ok (some r) => provMatches prov_hash r
      | _ => false) e.1 = provMatches prov_hash e.2 := by
    intro e hmem
    show (match (RedisCache.get true true now (toPhys ls) e.1).1 with
      | Except.ok (some r) => provMatches prov_hash r
      | _ => false) = provMatches prov_hash e.2
    rw [get_toPhys_fresh now ls hnodup hfresh e.1 e.2 hmem]
  have hscan : (redisOps now).scan_by_pattern (toPhys ls) "*"
      = (Except.ok (ls.map Prod.fst), toPhys ls) := scan_star_toPhys ls
  have hloop := provenance_to_purge_pure (redisOps now) prov_hash (ls.map Prod.fst)
    (toPhys ls) hget
  have hfilt := filter_fst_congr ls
    (fun k => match ((redisOps now).get (toPhys ls) k).1 with
      | Except.ok (some r) => provMatches prov_hash r
      | _ => false)
    (fun e => provMatches prov_hash e.2) hpred
  have hsubnodup : ((ls.filter (fun e => provMatches prov_hash e.2)).map Prod.fst).Nodup :=
    List.Nodup.sublist ((List.filter_sublist ls).map Prod.fst) hnodup
  have hsub : ∀ k ∈ (ls.filter (fun e => provMatches prov_hash e.2)).map Prod.fst,
      ∃ r, (k, r) ∈ ls := by
    intro k hk
    obtain ⟨e, hmem, rfl⟩ := List.mem_map.mp hk
    exact ⟨e.2, List.mem_of_mem_filter hmem⟩
  have hdel := delete_many_toPhys ls
    ((ls.filter (fun e => provMatches prov_hash e.2)).map Prod.fst) hnodup hsubnodup hsub
  have hcontains : ∀ e ∈ ls,
      ((ls.filter (fun e => provMatches prov_hash e.2)).map Prod.fst).contains e.1
        = provMatches prov_hash e.2 := by
    intro e hmem
    show ((ls.filter (fun e => provMatches prov_hash e.2)).map Prod.fst).elem e.1
        = provMatches prov_hash e.2
    rw [List.elem_eq_mem]
    by_cases hq : provMatches prov_hash e.2
    · have hin : e ∈ ls.filter (fun e => provMatches prov_hash e.2) :=
        List.mem_filter.mpr ⟨hmem, hq⟩
      simp [hq, List.mem_map_of_mem Prod.fst hin]
    · have hout : e.1 ∉ (ls.filter (fun e => provMatches prov_hash e.2)).map Prod.fst := by
        intro hin
        obtain ⟨e', hmem', heq'⟩ := List.mem_map.mp hin
        have hee := keys_nodup_entry_unique ls hnodup
          (List.mem_of_mem_filter hmem') hmem heq'
        rw [hee] at hmem'
        exact hq (List.mem_filter.mp hmem').2
      simp [hq, hout]
  have hfc : ls.filter (fun e =>
        !(((ls.filter (fun e => provMatches prov_hash e.2)).map Prod.fst).contains e.1))
      = ls.filter (fun e => !provMatches prov_hash e.2) :=
    List.filter_congr (fun e hmem => by rw [hcontains e hmem])
  unfold handle_purge
  dsimp only
  simp only [List.isEmpty_nil, Bool.not_true, Bool.false_eq_true, if_false]
  rw [hscan]
  dsimp only
  rw [hloop]
  dsimp only
  rw [hfilt]
  rw [redisOps_delete_many_eq, hdel]
  dsimp only
  rw [List.length_map, hfc]


/-- Witness for C7: of two cached records, purging by hash `h1` removes
exactly the one whose artifact hash is `h1`. -/
theorem purge_by_provenance_exact_witness :
    handle_purge (redisOps 1000) ⟨[]⟩ none ⟨[], none, some "h1"⟩
        (toPhys [("k", demoRecord), ("k2", demoRecordNoExp)]) demoMetrics
      = (Except.ok ⟨1⟩, toPhys [("k2", demoRecordNoExp)],
         demoMetrics.record_cache_purge 1) := by
  have hfresh : ∀ e ∈ [("k", demoRecord), ("k2", demoRecordNoExp)], ∀ d : Int,
      e.2.expires_at = some d → (1000 : Int) < d := by
    intro e he d hd
    rcases List.mem_cons.mp he with rfl | he2
    · simp [demoRecord] at hd
      omega
    · rcases List.mem_cons.mp he2 with rfl | he3
      · simp [demoRecordNoExp] at hd
      · cases he3
  have h := purge_by_provenance_exact 1000 ⟨[]⟩ none "h1"
    [("k", demoRecord), ("k2", demoRecordNoExp)] demoMetrics (by decide) hfresh
  exact h.trans (by decide)

end Scedge
